import Mathlib

/-!
Shallow embedding of the record-store code of `node_tut` (the most advanced
variant, `index.js` with file persistence, together with the near-identical
`module_two/ecommerce-api/index.js`).  Express routes become Lean functions
from the in-memory collection and the parsed request body to the new
collection paired with an `Except` outcome; the `await writeData` call is
modelled by a `writeOk : Bool` parameter (`false` = the disk write throws,
which the Express error middleware turns into a 500 response after the
in-memory mutation has already happened).
-/

namespace NodeTut

/-- JavaScript truthiness of an optional string request-body field:
`undefined` and the empty string are falsy. -/
def truthyS : Option String → Bool
  | none => false
  | some s => s ≠ ""

/-- JavaScript truthiness of an optional numeric request-body field:
`undefined` and `0` are falsy. -/
def truthyN : Option Int → Bool
  | none => false
  | some n => n ≠ 0

/-- JavaScript `x || d` for an optional string `x` and default `d`:
the default is taken when `x` is absent or falsy (empty). -/
def jsOrS (v : Option String) (d : String) : String :=
  match v with
  | none => d
  | some s => if s = "" then d else s

/-- JavaScript `s || d` for a plain string `s`: `d` when `s` is empty. -/
def jsOrStr (s d : String) : String :=
  if s = "" then d else s

/-- Model of JavaScript `String.prototype.toLowerCase` on the ASCII strings
this code handles: lower-case every character. -/
def jsToLower (s : String) : String :=
  ⟨s.data.map Char.toLower⟩

/-- One product record, as built by `app.post('/api/products')`:
`{ id, name, price, description, category }`. -/
structure Product where
  id : Nat
  name : String
  price : Int
  description : String
  category : String
deriving Repr, DecidableEq

/-- One student record, as built by `app.post('/api/students')`:
`{ id, name, grade, studentID }`. -/
structure Student where
  id : Nat
  name : String
  grade : String
  studentID : String
deriving Repr, DecidableEq

/-- Parsed JSON body of a product POST/PUT request; absent fields are `none`. -/
structure ProductBody where
  name : Option String
  price : Option Int
  description : Option String
  category : Option String
deriving Repr, DecidableEq

/-- Parsed JSON body of a student POST request; absent fields are `none`. -/
structure StudentBody where
  name : Option String
  grade : Option String
  studentID : Option String
deriving Repr, DecidableEq

/-- Outcomes the routes report: 400 validation, 404 not found,
400 duplicate studentID, and the 500 produced by the error middleware when
`writeData` rejects. -/
inductive ApiError where
  | validation
  | notFound
  | conflict
  | persist
deriving Repr, DecidableEq

/-- `GET /api/products?category=...`: with a truthy `category` query the list
is filtered by `p.category && p.category.toLowerCase() === category.toLowerCase()`;
otherwise the whole collection is returned. -/
def getProducts (products : List Product) (category : Option String) : List Product :=
  match category with
  | none => products
  | some c =>
    if c = "" then products
    else products.filter (fun p => p.category ≠ "" && jsToLower p.category == jsToLower c)

/-- `GET /api/products/:id`: `products.find(p => p.id === parseInt(req.params.id))`. -/
def getProductById (products : List Product) (pid : Nat) : Except ApiError Product :=
  match products.find? (fun p => p.id == pid) with
  | none => .error .notFound
  | some p => .ok p

/-- The new record `app.post('/api/products')` builds after validation:
`id = products.length + 1`, `category = category || 'Uncategorized'`. -/
def newProduct (products : List Product) (b : ProductBody) : Product :=
  { id := products.length + 1
    name := b.name.getD ""
    price := b.price.getD 0
    description := b.description.getD ""
    category := jsOrS b.category "Uncategorized" }

/-- `POST /api/products`: validate `!name || !price || !description`, build the
record, `products.push(newProduct)`, then `await writeData(...)`.  Returns the
in-memory collection after the call and the reported outcome; on a failed disk
write (`writeOk = false`) the push has already happened and is not undone. -/
def postProduct (writeOk : Bool) (products : List Product) (b : ProductBody) :
    List Product × Except ApiError Product :=
  if truthyS b.name && truthyN b.price && truthyS b.description then
    let np := newProduct products b
    let ps := products ++ [np]
    if writeOk then (ps, .ok np) else (ps, .error .persist)
  else
    (products, .error .validation)

/-- Replace the first element satisfying `p` by its image under `f`,
modelling mutation of the object returned by `Array.prototype.find`. -/
def updateFirst (p : α → Bool) (f : α → α) : List α → List α
  | [] => []
  | x :: xs => if p x then f x :: xs else x :: updateFirst p f xs

/-- Remove the first element satisfying `p`, modelling
`splice(findIndex(p), 1)`. -/
def removeFirst (p : α → Bool) : List α → List α
  | [] => []
  | x :: xs => if p x then xs else x :: removeFirst p xs

/-- The in-place field assignments of `app.put('/api/products/:id')`:
`id` is never written; `category = category || product.category || 'Uncategorized'`. -/
def applyProductUpdate (b : ProductBody) (q : Product) : Product :=
  { q with
    name := b.name.getD ""
    price := b.price.getD 0
    description := b.description.getD ""
    category := jsOrS b.category (jsOrStr q.category "Uncategorized") }

/-- `PUT /api/products/:id`: find (404 if absent), validate, mutate the found
record in place, then `await writeData(...)`.  On a failed write the in-memory
mutation has already happened and is not reverted. -/
def putProduct (writeOk : Bool) (products : List Product) (pid : Nat) (b : ProductBody) :
    List Product × Except ApiError Product :=
  match products.find? (fun q => q.id == pid) with
  | none => (products, .error .notFound)
  | some p =>
    if truthyS b.name && truthyN b.price && truthyS b.description then
      let ps := updateFirst (fun q => q.id == pid) (applyProductUpdate b) products
      if writeOk then (ps, .ok (applyProductUpdate b p)) else (ps, .error .persist)
    else
      (products, .error .validation)

/-- `DELETE /api/products/:id`: `findIndex` (404 when `-1`), `splice(index, 1)`,
then `await writeData(...)`.  On a failed write the removed record is not
reinserted. -/
def deleteProduct (writeOk : Bool) (products : List Product) (pid : Nat) :
    List Product × Except ApiError Unit :=
  if products.any (fun q => q.id == pid) then
    let ps := removeFirst (fun q => q.id == pid) products
    if writeOk then (ps, .ok ()) else (ps, .error .persist)
  else
    (products, .error .notFound)

/-- `GET /api/students?grade=...`: filter by
`p.grade && p.grade.toLowerCase() === grade.toLowerCase()` when the query is
truthy. -/
def getStudents (students : List Student) (grade : Option String) : List Student :=
  match grade with
  | none => students
  | some g =>
    if g = "" then students
    else students.filter (fun s => s.grade ≠ "" && jsToLower s.grade == jsToLower g)

/-- `GET /api/students/:id`: `students.find(p => p.studentID === req.params.id)` —
an exact (case-sensitive) string comparison. -/
def getStudentByStudentID (students : List Student) (sid : String) :
    Except ApiError Student :=
  match students.find? (fun s => s.studentID == sid) with
  | none => .error .notFound
  | some s => .ok s

/-- `POST /api/students`: validate `!name || !grade || !studentID`, reject a
duplicate `studentID` (exact comparison), else push
`{ id: students.length + 1, name, grade, studentID }` and `await writeData`. -/
def postStudent (writeOk : Bool) (students : List Student) (b : StudentBody) :
    List Student × Except ApiError Student :=
  if truthyS b.name && truthyS b.grade && truthyS b.studentID then
    if students.any (fun s => s.studentID == b.studentID.getD "") then
      (students, .error .conflict)
    else
      let ns : Student :=
        { id := students.length + 1
          name := b.name.getD ""
          grade := b.grade.getD ""
          studentID := b.studentID.getD "" }
      let ss := students ++ [ns]
      if writeOk then (ss, .ok ns) else (ss, .error .persist)
  else
    (students, .error .validation)

/-! ### Persistence layer: `writeData`, `readData`, `initializeData` -/

/-- `path.dirname` for the forward-slash paths this code uses: everything
before the last `/`, or `.` when there is no slash. -/
def dirname (p : String) : String :=
  let parts := p.splitOn "/"
  if parts.length ≤ 1 then "." else String.intercalate "/" parts.dropLast

/-- One filesystem call `writeData` (or an atomic variant of it) could issue. -/
inductive FsOp where
  | mkdirRecursive (dir : String)
  | writeFile (p : String) (content : String)
  | rename (src tgt : String)
deriving Repr, DecidableEq

/-- The filesystem calls of `writeData(filePath, data)` in order:
`fs.mkdir(path.dirname(filePath), { recursive: true })` then
`fs.writeFile(filePath, serialized)` — a direct write to the target path,
with no temporary file and no rename. -/
def writeDataOps (filePath : String) (serialized : String) : List FsOp :=
  [.mkdirRecursive (dirname filePath), .writeFile filePath serialized]

/-- Files on disk: an association list from path to content. -/
def FileMap := List (String × String)

/-- Content of a path, if the file exists. -/
def FileMap.get (fs : FileMap) (p : String) : Option String :=
  match fs.find? (fun e => e.1 == p) with
  | none => none
  | some e => some e.2

/-- Write (create or overwrite) a file. -/
def FileMap.set (fs : FileMap) (p c : String) : FileMap :=
  match fs with
  | [] => [(p, c)]
  | e :: es => if e.1 == p then (p, c) :: es else e :: FileMap.set es p c

/-- Effect of one completed filesystem call on the files. -/
def applyOp (fs : FileMap) : FsOp → FileMap
  | .mkdirRecursive _ => fs
  | .writeFile p c => fs.set p c
  | .rename src tgt =>
    match fs.get src with
    | none => fs
    | some c => (FileMap.set (removeFirst (fun e => e.1 == src) fs) tgt c)

/-- `Crash fs ops fs'` holds when a process interruption while executing the
call sequence `ops` against the files `fs` can leave the files in state `fs'`:
the crash may fall between calls, or inside a `writeFile`, in which case the
target holds an arbitrary prefix of the intended content. -/
inductive Crash : FileMap → List FsOp → FileMap → Prop
  | here (fs : FileMap) (ops : List FsOp) : Crash fs ops fs
  | midWrite (fs : FileMap) (p c : String) (k : Nat) (ops : List FsOp) :
      Crash fs (.writeFile p c :: ops) (fs.set p (c.take k))
  | step (fs : FileMap) (op : FsOp) (ops : List FsOp) (fs' : FileMap) :
      Crash (applyOp fs op) ops fs' → Crash fs (op :: ops) fs'

/-- What the store finds at a snapshot path at startup: no file, a file whose
content `JSON.parse` rejects, or a file parsing to a collection. -/
inductive FileState (α : Type) where
  | absent
  | corrupt
  | parsed (data : α)
deriving Repr, DecidableEq

/-- The error `readData` can propagate (a non-`ENOENT` failure; here the
`JSON.parse` exception on a corrupt snapshot). -/
inductive ReadErr where
  | parseFailure
deriving Repr, DecidableEq

/-- `readData(filePath, defaultData)`: return the parsed file content; on
`ENOENT` write `defaultData` to the file and return it (the `Bool` records
that write); on a parse failure rethrow the error. -/
def readData {α : Type} (file : FileState α) (defaultData : α) :
    Except ReadErr (α × Bool) :=
  match file with
  | .parsed d => .ok (d, false)
  | .corrupt => .error .parseFailure
  | .absent => .ok (defaultData, true)

/-- `initializeData()`: load products then students via `readData`; the
`catch` block logs and falls through, continuing with the in-memory defaults —
so the function never propagates an error.  If the products load throws, the
students assignment is never reached either. -/
def initializeData (pf : FileState (List Product)) (sf : FileState (List Student))
    (pd : List Product) (sd : List Student) :
    Except ReadErr (List Product × List Student) :=
  match readData pf pd with
  | .error _ => .ok (pd, sd)
  | .ok (p, _) =>
    match readData sf sd with
    | .error _ => .ok (p, sd)
    | .ok (s, _) => .ok (p, s)

/-- State of the process after the startup sequence. -/
structure StartupOutcome where
  products : List Product
  students : List Student
  serverStarted : Bool
deriving Repr, DecidableEq

/-- `initializeData().then(... app.listen ...).catch(... process.exit(1))`:
the server starts with whatever collections `initializeData` produced; only a
rejection of `initializeData` itself would abort the process. -/
def startup (pf : FileState (List Product)) (sf : FileState (List Student))
    (pd : List Product) (sd : List Student) : StartupOutcome :=
  match initializeData pf sf pd sd with
  | .ok (p, s) => ⟨p, s, true⟩
  | .error _ => ⟨pd, sd, false⟩

/-! ### Sample data used by concrete counterexamples and witnesses -/

/-- A first sample record, id 1. -/
def sampleA : Product := ⟨1, "A", 10, "d", "Electronics"⟩

/-- A second sample record, id 2. -/
def sampleB : Product := ⟨2, "B", 20, "d", "Books"⟩

/-- A valid product-creation body (all required fields truthy, no category). -/
def laptopBody : ProductBody := ⟨some "Laptop", some 999, some "x", none⟩

/-! ### Helper lemmas -/

/-- If `find?` locates `a`, the list splits as `pre ++ a :: post` with no match
in `pre`, and `updateFirst` rewrites exactly that occurrence. -/
theorem updateFirst_split {α : Type} (p : α → Bool) (f : α → α) :
    ∀ (l : List α) (a : α), l.find? p = some a →
      ∃ pre post, l = pre ++ a :: post ∧ (∀ x ∈ pre, p x = false) ∧
        updateFirst p f l = pre ++ f a :: post := by
  intro l
  induction l with
  | nil => intro a h; simp [List.find?] at h
  | cons x xs ih =>
    intro a h
    by_cases hx : p x
    · rw [List.find?_cons_of_pos _ hx] at h
      injection h with h
      subst h
      exact ⟨[], xs, by simp, by simp, by simp [updateFirst, hx]⟩
    · rw [List.find?_cons_of_neg _ hx] at h
      obtain ⟨pre, post, hl, hpre, hupd⟩ := ih a h
      refine ⟨x :: pre, post, by simp [hl], ?_, ?_⟩
      · intro y hy
        rcases List.mem_cons.mp hy with hy | hy
        · subst hy; exact Bool.not_eq_true _ ▸ (by simpa using hx)
        · exact hpre y hy
      · simp [updateFirst, hx, hupd]

/-! ### C1: id distinctness across store operations -/

/-- Claim C1 counterexample: start from ids 1 and 2 (pairwise distinct),
delete id 1, then create successfully; the new record is assigned id 2
(`length + 1`), which equals the id of the record still in the collection, so
the ids are no longer pairwise distinct. -/
theorem delete_then_create_duplicates_id :
    (([sampleA, sampleB].map Product.id).Nodup) ∧
    (deleteProduct true [sampleA, sampleB] 1).1 = [sampleB] ∧
    (postProduct true [sampleB] laptopBody).2 =
      .ok ⟨2, "Laptop", 999, "x", "Uncategorized"⟩ ∧
    ¬ (((postProduct true [sampleB] laptopBody).1.map Product.id).Nodup) :=
  ⟨by decide, rfl, rfl, by decide⟩

/-- Claim C1 amended: a successful create preserves pairwise-distinct ids
provided every existing id is at most the collection's length (true of the
seed data, whose ids are `1..n`, and preserved by creates alone); deletion
breaks that side condition, after which a create can duplicate an id. -/
theorem create_preserves_distinct_ids (wok : Bool) (ps ps' : List Product)
    (b : ProductBody) (r : Product)
    (h : postProduct wok ps b = (ps', .ok r))
    (hnd : (ps.map Product.id).Nodup)
    (hle : ∀ p ∈ ps, p.id ≤ ps.length) :
    (ps'.map Product.id).Nodup ∧ ∀ p ∈ ps', p.id ≤ ps'.length := by
  unfold postProduct at h
  split at h
  · split at h
    · simp only [Prod.mk.injEq] at h
      obtain ⟨h1, h2⟩ := h
      injection h2 with h2
      subst h1 h2
      constructor
      · simp only [List.map_append, List.map_cons, List.map_nil, newProduct]
        refine List.Nodup.append hnd (List.nodup_singleton _) ?_
        intro a ha hb
        simp only [List.mem_singleton] at hb
        subst hb
        obtain ⟨p, hp, hpid⟩ := List.mem_map.mp ha
        exact absurd (hpid ▸ hle p hp) (by omega)
      · intro p hp
        rcases List.mem_append.mp hp with hp | hp
        · calc p.id ≤ ps.length := hle p hp
            _ ≤ (ps ++ [newProduct ps b]).length := by simp
        · simp only [List.mem_singleton] at hp
          subst hp
          simp [newProduct]
    · simp at h
  · simp at h

/-- Witness for `create_preserves_distinct_ids` at a concrete instance. -/
theorem create_preserves_distinct_ids_witness :
    ((([sampleA, sampleB, ⟨3, "Laptop", 999, "x", "Uncategorized"⟩] :
        List Product).map Product.id).Nodup) ∧
    (∀ p ∈ ([sampleA, sampleB, ⟨3, "Laptop", 999, "x", "Uncategorized"⟩] :
        List Product),
      p.id ≤ ([sampleA, sampleB, ⟨3, "Laptop", 999, "x", "Uncategorized"⟩] :
        List Product).length) :=
  create_preserves_distinct_ids true [sampleA, sampleB]
    [sampleA, sampleB, ⟨3, "Laptop", 999, "x", "Uncategorized"⟩] laptopBody
    ⟨3, "Laptop", 999, "x", "Uncategorized"⟩ rfl (by decide) (by decide)

/-! ### C2: id assigned on create -/

/-- Claim C2 counterexample: with records of ids 1 and 2, deleting id 1 and
creating again yields id `2` (the code computes `products.length + 1`), not
the id `3` the max-plus-one rule of the claim would give. -/
theorem create_after_delete_yields_id_two :
    (postProduct true (deleteProduct true [sampleA, sampleB] 1).1 laptopBody).2 =
      .ok ⟨2, "Laptop", 999, "x", "Uncategorized"⟩ ∧ (2 : Nat) ≠ 3 :=
  ⟨rfl, by decide⟩

/-- Claim C2 amended: a successful create assigns
`id = collection length + 1` (hence `1` on an empty collection), not
max-id-plus-one. -/
theorem create_assigns_length_plus_one (wok : Bool) (ps ps' : List Product)
    (b : ProductBody) (r : Product)
    (h : postProduct wok ps b = (ps', .ok r)) :
    r.id = ps.length + 1 := by
  unfold postProduct at h
  split at h
  · split at h
    · simp only [Prod.mk.injEq] at h
      obtain ⟨h1, h2⟩ := h
      injection h2 with h2
      subst h2
      rfl
    · simp at h
  · simp at h

/-- Witness for `create_assigns_length_plus_one` on the empty collection. -/
theorem create_assigns_length_plus_one_witness :
    (⟨1, "Laptop", 999, "x", "Uncategorized"⟩ : Product).id =
      ([] : List Product).length + 1 :=
  create_assigns_length_plus_one true [] _ laptopBody _ rfl

/-! ### C3: rollback on persistence failure -/

/-- Claim C3 counterexample: a create whose disk write fails reports the
failure, yet the in-memory collection has grown from `[]` to one record —
the append is not undone. -/
theorem failed_write_leaves_appended_record :
    postProduct false [] laptopBody =
      ([⟨1, "Laptop", 999, "x", "Uncategorized"⟩], .error .persist) ∧
    ([⟨1, "Laptop", 999, "x", "Uncategorized"⟩] : List Product) ≠ [] :=
  ⟨rfl, by decide⟩

/-- Claim C3 amended: no rollback exists — for create, update, delete and
student create alike, the in-memory collection after a call whose disk write
fails is identical to the collection after a successful call (the mutation is
retained), not to the pre-call state. -/
theorem mutation_not_rolled_back (ps : List Product) (ss : List Student)
    (b b2 : ProductBody) (sb : StudentBody) (pid pid2 : Nat) :
    (postProduct false ps b).1 = (postProduct true ps b).1 ∧
    (putProduct false ps pid b2).1 = (putProduct true ps pid b2).1 ∧
    (deleteProduct false ps pid2).1 = (deleteProduct true ps pid2).1 ∧
    (postStudent false ss sb).1 = (postStudent true ss sb).1 := by
  refine ⟨?_, ?_, ?_, ?_⟩
  · unfold postProduct
    repeat' split
    all_goals rfl
  · unfold putProduct
    repeat' split
    all_goals rfl
  · unfold deleteProduct
    repeat' split
    all_goals rfl
  · unfold postStudent
    repeat' split
    all_goals rfl

/-! ### C4: atomicity of the snapshot write -/

/-- Claim C4 counterexample: `writeData` writes the serialized collection
directly to the target path, so a crash inside that write can leave the
target holding a strict prefix of the new content — a half-written snapshot
that is neither the old nor the new state. -/
theorem crash_mid_write_leaves_partial_snapshot :
    Crash [("./data/products.json", "old")]
      (writeDataOps "./data/products.json" "newsnapshot")
      [("./data/products.json", "new")] ∧
    ("new" : String) ≠ "old" ∧ ("new" : String) ≠ "newsnapshot" := by
  refine ⟨?_, by decide, by decide⟩
  apply Crash.step
  show Crash [("./data/products.json", "old")]
    [FsOp.writeFile "./data/products.json" "newsnapshot"]
    [("./data/products.json", "new")]
  have he : FileMap.set [("./data/products.json", "old")]
      "./data/products.json" ("newsnapshot".take 3) =
      [("./data/products.json", "new")] := by
    show @Eq (List (String × String)) _ _
    decide
  exact he ▸ Crash.midWrite [("./data/products.json", "old")]
    "./data/products.json" "newsnapshot" 3 []

/-- Claim C4 amended: `writeData` issues no rename and no temporary file —
just `mkdir` of the parent then a single direct write to the target — so a
crash mid-write can leave any prefix of the new content at the target path. -/
theorem writeData_direct_nonatomic (fs : FileMap) (path content : String)
    (k : Nat) :
    ((writeDataOps path content).all fun op =>
        match op with
        | .rename _ _ => false
        | _ => true) = true ∧
    Crash fs (writeDataOps path content) (fs.set path (content.take k)) :=
  ⟨rfl, Crash.step _ _ _ _ (Crash.midWrite fs path content k [])⟩

/-! ### C5: corrupt snapshot at startup -/

/-- Claim C5 counterexample: with a corrupt products snapshot, `readData`
does fail with the parse error, but `initializeData` catches it and the
server still starts, holding the default data in memory — startup is not
aborted. -/
theorem corrupt_snapshot_starts_server_with_defaults :
    readData (FileState.corrupt : FileState (List Product)) [sampleA] =
      .error .parseFailure ∧
    startup .corrupt .absent [sampleA] [] = ⟨[sampleA], [], true⟩ :=
  ⟨rfl, rfl⟩

/-- Claim C5 amended: on a corrupt snapshot `readData` propagates the parse
error, but `initializeData` catches every load error and the startup chain
continues: the server starts with the in-memory default collections. -/
theorem corrupt_snapshot_continues_startup (pd : List Product)
    (sd : List Student) (sf : FileState (List Student)) :
    readData (FileState.corrupt : FileState (List Product)) pd =
      .error .parseFailure ∧
    startup .corrupt sf pd sd = ⟨pd, sd, true⟩ :=
  ⟨rfl, rfl⟩

/-! ### C6: required-field validation -/

/-- Claim C6 counterexample: a body whose required fields are all present and
non-empty — name `"x"`, price the number `0`, description `"y"` — is
nevertheless rejected with a validation error, because `!price` is true for
the falsy number `0`. -/
theorem price_zero_rejected :
    postProduct true [] ⟨some "x", some (0 : Int), some "y", none⟩ =
      ([], .error .validation) ∧
    (some "x" ≠ (none : Option String)) ∧ ("x" : String) ≠ "" ∧
    (some (0 : Int) ≠ (none : Option Int)) ∧
    (some "y" ≠ (none : Option String)) ∧ ("y" : String) ≠ "" :=
  ⟨rfl, by decide, by decide, by decide, by decide, by decide⟩

/-- Claim C6 amended: create fails with a validation error exactly when some
required field is JavaScript-falsy — absent, an empty string, or (for the
numeric price) the number `0`; in particular a price of `0` is rejected. -/
theorem validation_rejects_falsy_fields (wok : Bool) (ps : List Product)
    (b : ProductBody) :
    (postProduct wok ps b).2 = .error .validation ↔
      (truthyS b.name && truthyN b.price && truthyS b.description) = false := by
  unfold postProduct
  cases h : (truthyS b.name && truthyN b.price && truthyS b.description)
  · simp [h]
  · cases wok <;> simp [h]

/-- Witness for `validation_rejects_falsy_fields` at a concrete body. -/
theorem validation_rejects_falsy_fields_witness :
    ((postProduct true [] ⟨some "a", some 1, some "b", none⟩).2 =
        Except.error ApiError.validation) ↔
      ((truthyS (some "a") && truthyN (some 1) && truthyS (some "b")) = false) :=
  validation_rejects_falsy_fields true [] ⟨some "a", some 1, some "b", none⟩

/-! ### C7: case sensitivity of comparisons -/

/-- Claim C7 counterexample: the studentID natural-key comparisons are exact,
not case-insensitive — looking up `"s1"` misses the stored `"S1"` even though
the two agree up to case, and creating a student whose studentID differs only
in case from an existing one passes the uniqueness check. -/
theorem studentID_lookup_case_sensitive :
    getStudentByStudentID [⟨1, "Alice", "A", "S1"⟩] "s1" = .error .notFound ∧
    jsToLower "S1" = jsToLower "s1" ∧
    (postStudent true [⟨1, "Alice", "A", "S1"⟩]
        ⟨some "Bob", some "B", some "s1"⟩).2 =
      .ok ⟨2, "Bob", "B", "s1"⟩ :=
  ⟨rfl, by decide, rfl⟩

/-- Claim C7 amended: the `list` filters (product category, student grade)
compare case-insensitively — filtering by two queries equal up to case gives
the same result — while the studentID natural-key lookup and the numeric id
lookup are exact. -/
theorem filter_case_insensitive_id_exact :
    (∀ (ps : List Product) (c₁ c₂ : String), c₁ ≠ "" → c₂ ≠ "" →
        jsToLower c₁ = jsToLower c₂ →
        getProducts ps (some c₁) = getProducts ps (some c₂)) ∧
    (∀ (ss : List Student) (g₁ g₂ : String), g₁ ≠ "" → g₂ ≠ "" →
        jsToLower g₁ = jsToLower g₂ →
        getStudents ss (some g₁) = getStudents ss (some g₂)) ∧
    (∀ (ss : List Student) (sid : String) (s : Student),
        getStudentByStudentID ss sid = .ok s → s.studentID = sid) ∧
    (∀ (ps : List Product) (pid : Nat) (p : Product),
        getProductById ps pid = .ok p → p.id = pid) := by
  refine ⟨?_, ?_, ?_, ?_⟩
  · intro ps c₁ c₂ h1 h2 hl
    simp only [getProducts]
    rw [if_neg h1, if_neg h2, hl]
  · intro ss g₁ g₂ h1 h2 hl
    simp only [getStudents]
    rw [if_neg h1, if_neg h2, hl]
  · intro ss sid s h
    unfold getStudentByStudentID at h
    split at h
    · simp at h
    · rename_i t heq
      injection h with h
      subst h
      simpa using List.find?_some heq
  · intro ps pid p h
    unfold getProductById at h
    split at h
    · simp at h
    · rename_i q heq
      injection h with h
      subst h
      simpa using List.find?_some heq

/-- Witness for `filter_case_insensitive_id_exact` at concrete inputs. -/
theorem filter_case_insensitive_id_exact_witness :
    getProducts [sampleB] (some "books") = getProducts [sampleB] (some "BOOKS") ∧
    (⟨1, "Alice", "A", "S1"⟩ : Student).studentID = "S1" ∧
    sampleA.id = 1 :=
  ⟨filter_case_insensitive_id_exact.1 [sampleB] "books" "BOOKS"
      (by decide) (by decide) (by decide : jsToLower "books" = jsToLower "BOOKS"),
    filter_case_insensitive_id_exact.2.2.1 [⟨1, "Alice", "A", "S1"⟩] "S1"
      ⟨1, "Alice", "A", "S1"⟩ rfl,
    filter_case_insensitive_id_exact.2.2.2 [sampleA] 1 sampleA rfl⟩

/-! ### C8: natural-key uniqueness on student create -/

/-- Claim C8 confirmed: creating a student whose studentID already occurs in
the collection fails with the conflict outcome and leaves the collection
unchanged, so the number of records carrying that key is unchanged (still
exactly one when it was one). -/
theorem duplicate_studentID_rejected (wok : Bool) (ss : List Student)
    (b : StudentBody) (k : String)
    (hname : truthyS b.name = true) (hgrade : truthyS b.grade = true)
    (hsid : b.studentID = some k) (hk : k ≠ "")
    (hdup : ∃ s ∈ ss, s.studentID = k) :
    postStudent wok ss b = (ss, .error .conflict) ∧
    ((postStudent wok ss b).1.filter fun s => s.studentID == k).length =
      (ss.filter fun s => s.studentID == k).length := by
  have hcond : (truthyS b.name && truthyS b.grade && truthyS b.studentID) = true := by
    rw [hname, hgrade, hsid]
    simp [truthyS, hk]
  have hany : (ss.any fun s => s.studentID == b.studentID.getD "") = true := by
    rw [hsid]
    obtain ⟨s, hs, hsk⟩ := hdup
    exact List.any_eq_true.mpr ⟨s, hs, by simp [hsk]⟩
  have hres : postStudent wok ss b = (ss, .error .conflict) := by
    unfold postStudent
    simp [hcond, hany]
  exact ⟨hres, by rw [hres]⟩

/-- Witness for `duplicate_studentID_rejected` at a concrete duplicate. -/
theorem duplicate_studentID_rejected_witness :
    postStudent true [⟨1, "Alice", "A", "S1"⟩]
        ⟨some "Bob", some "B", some "S1"⟩ =
      ([⟨1, "Alice", "A", "S1"⟩], .error .conflict) ∧
    ((postStudent true [⟨1, "Alice", "A", "S1"⟩]
        ⟨some "Bob", some "B", some "S1"⟩).1.filter
          fun s => s.studentID == "S1").length =
      (([⟨1, "Alice", "A", "S1"⟩] : List Student).filter
          fun s => s.studentID == "S1").length :=
  duplicate_studentID_rejected true [⟨1, "Alice", "A", "S1"⟩]
    ⟨some "Bob", some "B", some "S1"⟩ "S1" (by decide) (by decide) rfl
    (by decide) ⟨⟨1, "Alice", "A", "S1"⟩, by simp, rfl⟩

/-! ### C9: update keeps the id and touches no other record -/

/-- Claim C9 confirmed: a successful update rewrites exactly the first record
whose id matches — its id is unchanged and its mutable fields are replaced by
`applyProductUpdate` — while every record before and after it in the
collection is untouched. -/
theorem update_preserves_id_and_frame (wok : Bool) (ps : List Product)
    (pid : Nat) (b : ProductBody) (ps' : List Product) (r : Product)
    (h : putProduct wok ps pid b = (ps', .ok r)) :
    ∃ pre p post, ps = pre ++ p :: post ∧ (∀ q ∈ pre, q.id ≠ pid) ∧
      p.id = pid ∧ r = applyProductUpdate b p ∧ r.id = p.id ∧
      ps' = pre ++ r :: post := by
  unfold putProduct at h
  split at h
  · simp at h
  · rename_i p heq
    split at h
    · split at h
      · simp only [Prod.mk.injEq] at h
        obtain ⟨h1, h2⟩ := h
        injection h2 with h2
        subst h2
        obtain ⟨pre, post, hl, hpre, hupd⟩ :=
          updateFirst_split (fun q => q.id == pid) (applyProductUpdate b) ps p heq
        refine ⟨pre, p, post, hl, ?_, ?_, rfl, rfl, ?_⟩
        · intro q hq hqe
          have h3 := hpre q hq
          rw [hqe] at h3
          simp at h3
        · simpa using List.find?_some heq
        · rw [← h1, hupd]
      · simp at h
    · simp at h

/-- Witness for `update_preserves_id_and_frame` at a concrete update. -/
theorem update_preserves_id_and_frame_witness :
    ∃ pre p post, ([sampleA, sampleB] : List Product) = pre ++ p :: post ∧
      (∀ q ∈ pre, q.id ≠ 1) ∧ p.id = 1 ∧
      (⟨1, "N", 5, "e", "Electronics"⟩ : Product) = applyProductUpdate
        ⟨some "N", some 5, some "e", none⟩ p ∧
      (⟨1, "N", 5, "e", "Electronics"⟩ : Product).id = p.id ∧
      ([⟨1, "N", 5, "e", "Electronics"⟩, sampleB] : List Product) =
        pre ++ ⟨1, "N", 5, "e", "Electronics"⟩ :: post :=
  update_preserves_id_and_frame true [sampleA, sampleB] 1
    ⟨some "N", some 5, some "e", none⟩
    [⟨1, "N", 5, "e", "Electronics"⟩, sampleB]
    ⟨1, "N", 5, "e", "Electronics"⟩ rfl

/-! ### C10: category defaulting -/

/-- Claim C10 confirmed: a create whose body omits `category` stores
`"Uncategorized"`; an update whose body omits `category` keeps the matched
record's existing category, falling back to `"Uncategorized"` only when that
existing value is empty. -/
theorem omitted_category_defaults (wok : Bool) (ps : List Product)
    (b : ProductBody) (pid : Nat) (ps₁ ps₂ : List Product) (r₁ r₂ : Product)
    (hcat : b.category = none) :
    (postProduct wok ps b = (ps₁, .ok r₁) → r₁.category = "Uncategorized") ∧
    (putProduct wok ps pid b = (ps₂, .ok r₂) →
      ∃ p, (ps.find? fun q => q.id == pid) = some p ∧
        r₂.category = jsOrStr p.category "Uncategorized") := by
  constructor
  · intro h
    unfold postProduct at h
    split at h
    · split at h
      · simp only [Prod.mk.injEq] at h
        obtain ⟨h1, h2⟩ := h
        injection h2 with h2
        subst h2
        simp [newProduct, jsOrS, hcat]
      · simp at h
    · simp at h
  · intro h
    unfold putProduct at h
    split at h
    · simp at h
    · rename_i p heq
      split at h
      · split at h
        · simp only [Prod.mk.injEq] at h
          obtain ⟨h1, h2⟩ := h
          injection h2 with h2
          subst h2
          exact ⟨p, heq, by simp [applyProductUpdate, jsOrS, hcat]⟩
        · simp at h
      · simp at h

/-- Witness for `omitted_category_defaults` at concrete create and update. -/
theorem omitted_category_defaults_witness :
    ((⟨2, "Laptop", 999, "x", "Uncategorized"⟩ : Product).category =
      "Uncategorized") ∧
    (∃ p, (([sampleA] : List Product).find? fun q => q.id == 1) = some p ∧
      (⟨1, "Laptop", 999, "x", "Electronics"⟩ : Product).category =
        jsOrStr p.category "Uncategorized") :=
  ⟨(omitted_category_defaults true [sampleA] laptopBody 1
      [sampleA, ⟨2, "Laptop", 999, "x", "Uncategorized"⟩]
      [⟨1, "Laptop", 999, "x", "Electronics"⟩]
      ⟨2, "Laptop", 999, "x", "Uncategorized"⟩
      ⟨1, "Laptop", 999, "x", "Electronics"⟩ rfl).1 rfl,
    (omitted_category_defaults true [sampleA] laptopBody 1
      [sampleA, ⟨2, "Laptop", 999, "x", "Uncategorized"⟩]
      [⟨1, "Laptop", 999, "x", "Electronics"⟩]
      ⟨2, "Laptop", 999, "x", "Uncategorized"⟩
      ⟨1, "Laptop", 999, "x", "Electronics"⟩ rfl).2 rfl⟩

end NodeTut
